import Mathlib

/-!
Verification of the `FluxImgGen` cog (`src/FluxImgGen/core.py`) against its
specification.  The Python code is shallowly embedded: Python strings are
lists of characters, the discord/aiohttp runtime is replaced by explicit
input data (the mocked HTTP backend), and every exception-carrying operation
returns an `Except` value.  All definitions follow the source line by line;
the HTTP and JSON behaviour of `aiohttp.ClientResponse.json` is modelled
from that library's documented contract because the source calls it
directly.
-/

/-- A Python `str`, modelled as its list of characters. -/
abbrev PyStr := List Char

/-- Build a `PyStr` from a Lean string literal. -/
def pstr (s : String) : PyStr := s.toList

/-- Python `s.split(sep)` for a one-character separator `sep` (the source
only splits on `" "` and `"="`).  Mirrors CPython: `"".split(sep) = [""]`,
consecutive separators produce empty fields, and a trailing separator
produces a trailing empty field. -/
def pySplit (c : Char) : PyStr → List PyStr
  | [] => [[]]
  | x :: xs =>
    match pySplit c xs with
    | [] => [[x]]
    | t :: ts => if x = c then [] :: t :: ts else (x :: t) :: ts

/-- Python `sep.join(parts)` for a one-character separator. -/
def pyJoin (c : Char) : List PyStr → PyStr
  | [] => []
  | [t] => t
  | t :: t2 :: ts => t ++ c :: pyJoin c (t2 :: ts)

/-- Python `s.startswith(p)`. -/
def pyStartsWith (p s : PyStr) : Bool := List.isPrefixOf p s

/-- Python `needle in hay` for strings: `needle` occurs as a contiguous
substring of `hay`. -/
def pyContains (needle : PyStr) : PyStr → Bool
  | [] => needle.isEmpty
  | c :: rest => pyStartsWith needle (c :: rest) || pyContains needle rest

/-- Python `s.lower()` (the strings involved are ASCII). -/
def pyToLower (s : PyStr) : PyStr := s.map Char.toLower

/-- Python `str(n)` for a non-negative `int`. -/
def natToStr (n : Nat) : PyStr := (Nat.repr n).toList

/-- Python `x or default` where `x : Optional[str]`: `None` and the empty
string are falsy and select the default. -/
def pyOrStr : Option PyStr → PyStr → PyStr
  | none, d => d
  | some s, d => if s.isEmpty then d else s

/-- Python truthiness of an `Optional[str]` value. -/
def pyTruthy : Option PyStr → Bool
  | none => false
  | some s => !s.isEmpty

/-- Python `f"{x}"` for `x : Optional[str]`: `None` renders as `"None"`. -/
def pyStrOfOpt : Option PyStr → PyStr
  | none => pstr "None"
  | some s => s

/-- Falsiness of the result of `dict.get(k)`: the key is absent or its
value is the empty string. -/
def pyFalsy : Option PyStr → Bool
  | none => true
  | some v => v.isEmpty

/-- Python `re.match(r"^\d+x\d+$", s)` as a Boolean: one or more digits,
the letter `x`, one or more digits, and nothing else.  `\d` is modelled as
an ASCII digit. -/
def re_match_size (s : PyStr) : Bool :=
  let ds := s.takeWhile Char.isDigit
  let rest := s.dropWhile Char.isDigit
  !ds.isEmpty &&
    (match rest with
     | 'x' :: tail => !tail.isEmpty && tail.all Char.isDigit
     | _ => false)

/-- `arg.split("=")[1]` — the value of a `--model=`/`--size=` token.  On the
paths where the source evaluates this, the token starts with `--model=` or
`--size=`, so the split always has at least two fields and the default is
never used. -/
def argValue (arg : PyStr) : PyStr := (pySplit '=' arg).getD 1 []

/-- A JSON value, as produced by `aiohttp.ClientResponse.json()`
(a Python object built from `None`, strings, numbers, lists and dicts). -/
inductive JsonVal
  | null
  | str (s : PyStr)
  | num (n : Int)
  | arr (xs : List JsonVal)
  | obj (fields : List (PyStr × JsonVal))

/-- The exceptions that the embedded code can raise.  `DiffusionError` is the
cog's own class (line 34 of the source); `clientResponseError` covers
`aiohttp.ClientResponseError` and its subclass `aiohttp.ContentTypeError`;
the remaining constructors are Python built-in exceptions that the source
does not catch. -/
inductive PyError
  | diffusionError (msg : PyStr)
  | clientResponseError (status : Nat) (msg : PyStr)
  | jsonDecodeError
  | keyError (k : PyStr)
  | indexError
  | typeError (msg : PyStr)
  deriving DecidableEq

/-- The outcome of `await response.json()` on the POST response, per the
`aiohttp` contract: if the `Content-Type` header is not a JSON one, it
raises `ContentTypeError` (a `ClientResponseError` carrying the response
status) before anything else; if the body fails to decode as JSON it raises
`json.JSONDecodeError`; otherwise it yields the decoded value. -/
inductive BodyParse
  | parsed (j : JsonVal)
  | wrongContentType (msg : PyStr)
  | malformed

/-- The mocked response to the POST request: its HTTP status and the result
of parsing its body as JSON. -/
structure HttpResp where
  status : Nat
  body : BodyParse

/-- The mocked remote API: one POST response, and the bytes returned by the
follow-up GET for each URL. -/
structure Backend where
  postResp : HttpResp
  getBody : PyStr → List Nat

/-- `aiohttp`'s `response.ok`: true iff `400 > status`. -/
def response_ok (status : Nat) : Bool := status < 400

/-- The JSON body of the POST request (the `data` dict literal at lines
87-93 of the source, field for field). -/
structure PostBody where
  prompt : PyStr
  n : Nat
  size : PyStr
  response_format : PyStr
  model : PyStr
  deriving DecidableEq

/-- One outbound HTTP request made by the cog. -/
inductive HttpCall
  | post (url : PyStr) (body : PostBody) (auth : PyStr)
  | get (url : PyStr)
  deriving DecidableEq

/-- A `discord.File` built by `_image_to_file`: its byte content and its
filename. -/
structure PyFile where
  content : List Nat
  filename : PyStr
  deriving DecidableEq

/-- The observable way one invocation of the `flux` command ends:
the invalid-size validation reply, the caught-`DiffusionError` reply, the
caught-`ClientResponseError` reply, an uncaught exception, or the success
reply carrying exactly one file attachment and the embed description. -/
inductive GenOutcome
  | invalidSizeReply (msg : PyStr)
  | errorReply (msg : PyStr)
  | httpErrorReply (msg : PyStr)
  | uncaught (e : PyError)
  | success (file : PyFile) (embedDescription : PyStr)
  deriving DecidableEq

/-- The shared API token store returned by `get_shared_api_tokens("flux")`:
a string-keyed dictionary. -/
abbrev TokenStore := List (PyStr × PyStr)

/-- Python `d[k]` on the token store: the value, or a `KeyError`. -/
def dictGetItem (d : TokenStore) (k : PyStr) : Except PyError PyStr :=
  match d.lookup k with
  | some v => .ok v
  | none => .error (.keyError k)

/-- A token store holding exactly the four keys the cog reads. -/
def mkTokens (dm ds ep k : PyStr) : TokenStore :=
  [(pstr "model", dm), (pstr "size", ds), (pstr "endpoint", ep), (pstr "key", k)]

/-- The static alias table `self.model_mapping` (lines 44-62), entry for
entry. -/
def model_mapping : List (PyStr × PyStr) :=
  [(pstr "base", pstr "flux"),
   (pstr "realism", pstr "flux-realism"),
   (pstr "3d", pstr "flux-3d"),
   (pstr "anime", pstr "flux-anime"),
   (pstr "disney", pstr "flux-disney"),
   (pstr "pixel", pstr "flux-pixel"),
   (pstr "4o", pstr "flux-4o"),
   (pstr "anydark", pstr "any-dark"),
   (pstr "pro", pstr "flux.1.1-pro-ultra"),
   (pstr "sd3", pstr "stable-diffusion-3-large-turbo"),
   (pstr "sdxl", pstr "sdxl-lightning-4step"),
   (pstr "kandinsky", pstr "kandinsky-3.1"),
   (pstr "deliberate3", pstr "deliberate-v3"),
   (pstr "rdxl", pstr "realdream-xl"),
   (pstr "jugg", pstr "juggernaut-xl-v10"),
   (pstr "half", pstr "flux-half-illustration"),
   (pstr "recraft", pstr "recraft-v3")]

/-- The message of the exception raised by `initialize_tokens` (line 67). -/
def setupMsg : PyStr :=
  pstr "Setup not done. Use `set api flux key <api_key> set api flux model <default_model>`, `set api flux size <default_size>`, and `set api flux endpoint <baseUrl for api>`."

/-- The fixed invalid-size validation reply (line 168). -/
def invalidSizeMsg : PyStr :=
  pstr "Invalid size value. Please provide a valid resolution in the format 'width:height' (e.g., '1920x1080')."

/-- `initialize_tokens` (lines 64-67): reads the shared token store and
raises a `DiffusionError` if any of the four keys is absent or falsy. -/
def pyInitializeTokens (store : TokenStore) : Except PyError Unit :=
  if pyFalsy (store.lookup (pstr "model")) || pyFalsy (store.lookup (pstr "size")) ||
      pyFalsy (store.lookup (pstr "endpoint")) || pyFalsy (store.lookup (pstr "key")) then
    .error (.diffusionError setupMsg)
  else
    .ok ()

/-- Python `content[k]` for a string key on a JSON value: a dict lookup, a
`KeyError` on a missing key, a `TypeError` on a non-dict value. -/
def pyGetKey (v : JsonVal) (k : PyStr) : Except PyError JsonVal :=
  match v with
  | .obj fields =>
    match fields.lookup k with
    | some w => .ok w
    | none => .error (.keyError k)
  | _ => .error (.typeError (pstr "value is not subscriptable by a string"))

/-- Python `content[i]` for an integer index: list indexing (with
`IndexError` out of range), one-character string indexing, `KeyError` on a
dict, and `TypeError` otherwise. -/
def pyGetIdx (v : JsonVal) (i : Nat) : Except PyError JsonVal :=
  match v with
  | .arr xs =>
    match xs.get? i with
    | some w => .ok w
    | none => .error .indexError
  | .str s =>
    match s.get? i with
    | some c => .ok (.str [c])
    | none => .error .indexError
  | .obj _ => .error (.keyError (natToStr i))
  | _ => .error (.typeError (pstr "value is not subscriptable by an integer"))

/-- `_request` (lines 86-109).  Alongside the result it returns the list of
HTTP requests issued.  The body dict, the bearer header and the URL are
built exactly as in the source; the response body is parsed as JSON before
the `response.ok` check, then on a non-success status a `DiffusionError`
with the status is raised, otherwise `content["data"][0]["url"]` is
extracted and fetched with a GET whose full body is returned. -/
def pyRequest (env : Backend) (tokens : TokenStore) (baseUrl prompt model size : PyStr) :
    Except PyError (List Nat) × List HttpCall :=
  let data : PostBody :=
    { prompt := prompt, n := 1, size := size, response_format := pstr "url", model := model }
  let key := tokens.lookup (pstr "key")
  let auth := pstr "Bearer " ++ pyStrOfOpt key
  let url := baseUrl ++ pstr "/v1/images/generations"
  let resp := env.postResp
  let calls := [HttpCall.post url data auth]
  match resp.body with
  | .wrongContentType m => (.error (.clientResponseError resp.status m), calls)
  | .malformed => (.error .jsonDecodeError, calls)
  | .parsed content =>
    if !response_ok resp.status then
      (.error (.diffusionError (pstr "Error?: " ++ natToStr resp.status)), calls)
    else
      match pyGetKey content (pstr "data") with
      | .error e => (.error e, calls)
      | .ok d =>
        match pyGetIdx d 0 with
        | .error e => (.error e, calls)
        | .ok first =>
          match pyGetKey first (pstr "url") with
          | .error e => (.error e, calls)
          | .ok uv =>
            match uv with
            | .str image_url => (.ok (env.getBody image_url), calls ++ [HttpCall.get image_url])
            | _ => (.error (.typeError (pstr "url must be a string")), calls)

/-- `_generate_image` (lines 111-121): reads the defaults with dict access,
applies the `or`-fallbacks, checks alias membership case-insensitively,
maps the alias, and calls `_request`. -/
def pyGenerateImage (env : Backend) (tokens : TokenStore) (prompt : PyStr)
    (model size : Option PyStr) : Except PyError (List Nat) × List HttpCall :=
  match dictGetItem tokens (pstr "model") with
  | .error e => (.error e, [])
  | .ok default_model =>
    match dictGetItem tokens (pstr "size") with
    | .error e => (.error e, [])
    | .ok default_size =>
      match dictGetItem tokens (pstr "endpoint") with
      | .error e => (.error e, [])
      | .ok baseUrl =>
        let size := pyOrStr size default_size
        let model := pyOrStr model default_model
        if (model_mapping.lookup (pyToLower model)).isNone then
          (.error (.diffusionError (pstr "Model `" ++ model ++ pstr "` does not exist.")), [])
        else
          let model := (model_mapping.lookup (pyToLower model)).getD model
          pyRequest env tokens baseUrl prompt model size

/-- `_image_to_file` (lines 123-127): wraps the bytes with the filename
`prompt.replace(" ", "_") + ".png"`. -/
def pyImageToFile (image_data : List Nat) (prompt : PyStr) : PyFile :=
  { content := image_data,
    filename := prompt.map (fun c => if c = ' ' then '_' else c) ++ pstr ".png" }

/-- The argument loop of `_gen` (lines 162-171): walks the tokens, records
the last `--model=`/`--size=` values, validates the size value, collects the
remaining tokens as prompt parts; `none` is the early return after the
invalid-size reply. -/
def parseLoop : List PyStr → Option PyStr → Option PyStr → List PyStr →
    Option (Option PyStr × Option PyStr × List PyStr)
  | [], model, size, parts => some (model, size, parts)
  | arg :: rest, model, size, parts =>
    if pyStartsWith (pstr "--model=") arg then
      parseLoop rest (some (argValue arg)) size parts
    else if pyStartsWith (pstr "--size=") arg then
      let v := argValue arg
      if re_match_size v then parseLoop rest model (some v) parts
      else none
    else
      parseLoop rest model size (parts ++ [arg])

/-- Parsing phase of `_gen` (lines 157-171): `args.split(" ")` followed by
the argument loop. -/
def pyParse (args : PyStr) : Option (Option PyStr × Option PyStr × List PyStr) :=
  parseLoop (pySplit ' ' args) none none []

/-- The prompt computed by a successful parse of `args`. -/
def pyPromptOf (args : PyStr) : Option PyStr :=
  (pyParse args).map (fun t => pyJoin ' ' t.2.2)

/-- The model shown in the success embed (line 194):
`model if model else self.tokens.get('model')` rendered into the f-string. -/
def pyDisplayModel (model : Option PyStr) (tokens : TokenStore) : PyStr :=
  pyStrOfOpt (if pyTruthy model then model else tokens.lookup (pstr "model"))

/-- The tail of `_gen` after parsing (lines 173-198): joins the prompt,
calls `_generate_image`, translates the two caught exception classes into
their replies, lets other exceptions escape, and on success builds the file
and the embed description. -/
def pyRunParsed (env : Backend) (tokens : TokenStore)
    (model size : Option PyStr) (parts : List PyStr) : GenOutcome × List HttpCall :=
  let prompt := pyJoin ' ' parts
  match pyGenerateImage env tokens prompt model size with
  | (.error (.diffusionError m), calls) =>
    (.errorReply (pstr "Something went wrong...\n" ++ m), calls)
  | (.error (.clientResponseError st m), calls) =>
    (.httpErrorReply (pstr "Error?: `" ++ natToStr st ++ pstr "`\n" ++ m), calls)
  | (.error e, calls) => (.uncaught e, calls)
  | (.ok image_data, calls) =>
    (.success (pyImageToFile image_data prompt)
      (pstr "Prompt: " ++ prompt ++ pstr "; Model: " ++ pyDisplayModel model tokens ++ pstr ";"),
     calls)

/-- `_gen` (lines 130-198): one full invocation of the `flux` command,
returning how it ends and the HTTP requests it made. -/
def pyGen (env : Backend) (tokens : TokenStore) (args : PyStr) : GenOutcome × List HttpCall :=
  match pyParse args with
  | none => (.invalidSizeReply invalidSizeMsg, [])
  | some (model, size, parts) => pyRunParsed env tokens model size parts

/-- Whether an outcome is the reply produced by the `except DiffusionError`
branch (lines 177-183). -/
def isDiffusionReply : GenOutcome → Bool
  | .errorReply _ => true
  | _ => false

/-- The first four bytes of a PNG file, `b"\x89PNG"`, used by the mocked
backend. -/
def pngBytes : List Nat := [137, 80, 78, 71]

/-- A mocked POST response body: valid JSON of the expected shape, with the
image at `http://img.example/out.png`. -/
def okJson : JsonVal :=
  .obj [(pstr "data", .arr [.obj [(pstr "url", .str (pstr "http://img.example/out.png"))]])]

/-- A mocked backend that accepts the POST (status 200, well-shaped JSON)
and serves `pngBytes` at the returned URL. -/
def okEnv : Backend :=
  { postResp := { status := 200, body := .parsed okJson },
    getBody := fun u => if u = pstr "http://img.example/out.png" then pngBytes else [] }

/-- A fully populated token store with default model `base`. -/
def goodTokens : TokenStore :=
  mkTokens (pstr "base") (pstr "512x512") (pstr "http://api.example") (pstr "secret")

/- Sanity checks of the Python-semantics primitives on concrete inputs. -/
example : pySplit '=' (pstr "--model=a=b") = [pstr "--model", pstr "a", pstr "b"] := by decide
example : pySplit ' ' (pstr "a  b") = [pstr "a", [], pstr "b"] := by decide
example : pySplit '=' (pstr "--model=") = [pstr "--model", []] := by decide
example : pyJoin ' ' [pstr "a", [], pstr "b"] = pstr "a  b" := by decide
example : re_match_size (pstr "1024x1024") = true := by decide
example : re_match_size (pstr "1024") = false := by decide
example : re_match_size (pstr "widexhigh") = false := by decide
example : re_match_size (pstr "1x2x3") = false := by decide
example : argValue (pstr "--model=a=b") = pstr "a" := by decide
example :
    pyGen okEnv goodTokens (pstr "hello world") =
      (.success { content := pngBytes, filename := pstr "hello_world.png" }
        (pstr "Prompt: hello world; Model: base;"),
       [HttpCall.post (pstr "http://api.example/v1/images/generations")
          { prompt := pstr "hello world", n := 1, size := pstr "512x512",
            response_format := pstr "url", model := pstr "flux" }
          (pstr "Bearer secret"),
        HttpCall.get (pstr "http://img.example/out.png")]) := by decide

/-- `pySplit` never returns an empty list of fields. -/
theorem pySplit_ne_nil (c : Char) (s : PyStr) : pySplit c s ≠ [] := by
  induction s with
  | nil => simp [pySplit]
  | cons x xs ih =>
    simp only [pySplit]
    cases h : pySplit c xs with
    | nil => simp
    | cons t ts =>
      by_cases hx : x = c <;> simp [hx]

/-- Splitting a string that does not contain the separator yields the
string as the single field. -/
theorem pySplit_not_mem {c : Char} {s : PyStr} (h : c ∉ s) : pySplit c s = [s] := by
  induction s with
  | nil => rfl
  | cons x xs ih =>
    have hx : x ≠ c := fun he => h (he ▸ List.mem_cons_self x xs)
    have hxs : c ∉ xs := fun hm => h (List.mem_cons_of_mem x hm)
    simp [pySplit, ih hxs, hx]

/-- Splitting peels off the first separator-free segment. -/
theorem pySplit_append {c : Char} {a : PyStr} (b : PyStr) (h : c ∉ a) :
    pySplit c (a ++ c :: b) = a :: pySplit c b := by
  induction a with
  | nil =>
    simp only [List.nil_append, pySplit]
    cases hb : pySplit c b with
    | nil => exact absurd hb (pySplit_ne_nil c b)
    | cons t ts => simp
  | cons x a' ih =>
    have hx : x ≠ c := fun he => h (he ▸ List.mem_cons_self x a')
    have ha' : c ∉ a' := fun hm => h (List.mem_cons_of_mem x hm)
    simp only [List.cons_append, pySplit]
    rw [List.append_eq, ih ha']
    simp [hx]

/-- Joining the fields of a split restores the original string: Python's
`sep.join(s.split(sep)) == s`. -/
theorem pyJoin_pySplit (c : Char) (s : PyStr) : pyJoin c (pySplit c s) = s := by
  induction s with
  | nil => rfl
  | cons x xs ih =>
    simp only [pySplit]
    cases h : pySplit c xs with
    | nil => exact absurd h (pySplit_ne_nil c xs)
    | cons t ts =>
      rw [h] at ih
      by_cases hx : x = c
      · subst hx
        simp only [if_pos rfl]
        cases ts with
        | nil => simpa [pyJoin] using congrArg (x :: ·) ih
        | cons t2 ts' => simpa [pyJoin] using congrArg (x :: ·) ih
      · simp only [if_neg hx]
        cases ts with
        | nil => simpa [pyJoin] using congrArg (x :: ·) ih
        | cons t2 ts' => simpa [pyJoin] using congrArg (x :: ·) ih

/-- A token kept as part of the prompt: it is neither a `--model=` token nor
a `--size=` token. -/
def keepTok (t : PyStr) : Bool :=
  !pyStartsWith (pstr "--model=") t && !pyStartsWith (pstr "--size=") t

/-- When the argument loop completes, the collected prompt parts are the
kept tokens, in their original relative order, appended to the accumulator. -/
theorem parseLoop_parts (args : List PyStr) :
    ∀ (m s : Option PyStr) (parts : List PyStr) (m' s' : Option PyStr) (parts' : List PyStr),
    parseLoop args m s parts = some (m', s', parts') →
    parts' = parts ++ args.filter keepTok := by
  induction args with
  | nil =>
    intro m s parts m' s' parts' h
    simp only [parseLoop, Option.some_inj, Prod.mk.injEq] at h
    simp [h.2.2]
  | cons arg rest ih =>
    intro m s parts m' s' parts' h
    simp only [parseLoop] at h
    cases hm : pyStartsWith (pstr "--model=") arg with
    | true =>
      rw [hm] at h
      simp only [if_true] at h
      have := ih _ _ _ _ _ _ h
      simp [List.filter_cons, keepTok, hm, this]
    | false =>
      rw [hm] at h
      simp only [Bool.false_eq_true, if_false] at h
      cases hs : pyStartsWith (pstr "--size=") arg with
      | true =>
        rw [hs] at h
        simp only [if_true] at h
        cases hr : re_match_size (argValue arg) with
        | true =>
          rw [hr] at h
          simp only [if_true] at h
          have := ih _ _ _ _ _ _ h
          simp [List.filter_cons, keepTok, hm, hs, this]
        | false =>
          rw [hr] at h
          simp at h
      | false =>
        rw [hs] at h
        simp only [Bool.false_eq_true, if_false] at h
        have := ih _ _ _ _ _ _ h
        simp [List.filter_cons, keepTok, hm, hs, this]

/-- When no token is a `--model=`/`--size=` token, the loop succeeds, keeps
every token, and leaves model and size untouched. -/
theorem parseLoop_all_keep (args : List PyStr) :
    ∀ (m s : Option PyStr) (parts : List PyStr),
    (∀ t ∈ args, keepTok t = true) →
    parseLoop args m s parts = some (m, s, parts ++ args) := by
  induction args with
  | nil => intro m s parts _; simp [parseLoop]
  | cons arg rest ih =>
    intro m s parts hall
    have ha : keepTok arg = true := hall arg (List.mem_cons_self arg rest)
    have hrest : ∀ t ∈ rest, keepTok t = true :=
      fun t ht => hall t (List.mem_cons_of_mem arg ht)
    simp only [keepTok, Bool.and_eq_true, Bool.not_eq_true'] at ha
    simp only [parseLoop, ha.1, ha.2, Bool.false_eq_true, if_false]
    rw [ih _ _ _ hrest]
    simp

/-- If no token is a `--model=` token and the loop (started with no model)
completes, the resulting model is still `None`. -/
theorem parseLoop_model_none (args : List PyStr) :
    ∀ (s : Option PyStr) (parts : List PyStr) (m' s' : Option PyStr) (parts' : List PyStr),
    (∀ t ∈ args, pyStartsWith (pstr "--model=") t = false) →
    parseLoop args none s parts = some (m', s', parts') → m' = none := by
  induction args with
  | nil =>
    intro s parts m' s' parts' _ h
    simp only [parseLoop, Option.some_inj, Prod.mk.injEq] at h
    exact h.1.symm
  | cons arg rest ih =>
    intro s parts m' s' parts' hall h
    have ha : pyStartsWith (pstr "--model=") arg = false :=
      hall arg (List.mem_cons_self arg rest)
    have hrest : ∀ t ∈ rest, pyStartsWith (pstr "--model=") t = false :=
      fun t ht => hall t (List.mem_cons_of_mem arg ht)
    simp only [parseLoop, ha, Bool.false_eq_true, if_false] at h
    cases hs : pyStartsWith (pstr "--size=") arg with
    | true =>
      rw [hs] at h
      simp only [if_true] at h
      cases hr : re_match_size (argValue arg) with
      | true =>
        rw [hr] at h
        simp only [if_true] at h
        exact ih _ _ _ _ _ hrest h
      | false =>
        rw [hr] at h
        simp at h
    | false =>
      rw [hs] at h
      simp only [Bool.false_eq_true, if_false] at h
      exact ih _ _ _ _ _ hrest h

/-- A successful association-list lookup comes from a member pair. -/
theorem lookup_mem {α β : Type} [BEq α] [LawfulBEq α] :
    ∀ {l : List (α × β)} {k : α} {v : β}, l.lookup k = some v → (k, v) ∈ l := by
  intro l
  induction l with
  | nil => intro k v h; simp [List.lookup] at h
  | cons p rest ih =>
    intro k v h
    rw [List.lookup] at h
    cases hk : k == p.1 with
    | true =>
      rw [hk] at h
      simp only [Option.some_inj] at h
      have hkey : k = p.1 := by simpa using hk
      have : (k, v) = p := by rw [hkey, ← h]
      rw [this]
      exact List.mem_cons_self p rest
    | false =>
      rw [hk] at h
      exact List.mem_cons_of_mem p (ih h)

/-- `startswith` holds for any literal prefix. -/
theorem isPrefixOf_append_self (p s : PyStr) : List.isPrefixOf p (p ++ s) = true := by
  induction p with
  | nil => simp [List.isPrefixOf]
  | cons x xs ih => simp [List.isPrefixOf, ih]

/-- A `--size=`-prefixed string starts with `--size=`. -/
theorem startsWith_size_self (s : PyStr) :
    pyStartsWith (pstr "--size=") (pstr "--size=" ++ s) = true :=
  isPrefixOf_append_self (pstr "--size=") s

/-- A `--size=`-prefixed string does not start with `--model=`. -/
theorem not_startsWith_model_size (s : PyStr) :
    pyStartsWith (pstr "--model=") (pstr "--size=" ++ s) = false := rfl

/-- A `--model=`-prefixed string starts with `--model=`. -/
theorem startsWith_model_self (s : PyStr) :
    pyStartsWith (pstr "--model=") (pstr "--model=" ++ s) = true :=
  isPrefixOf_append_self (pstr "--model=") s

/-- A `--model=`-prefixed string does not start with `--size=`. -/
theorem not_startsWith_size_model (s : PyStr) :
    pyStartsWith (pstr "--size=") (pstr "--model=" ++ s) = false := rfl

/-- `split("=")[1]` of `a=s` with `=`-free `a` and `s` is `s`. -/
theorem argValue_eq_tail (a s : PyStr) (ha : '=' ∉ a) (hs : '=' ∉ s) :
    argValue (a ++ '=' :: s) = s := by
  rw [argValue, pySplit_append _ ha, pySplit_not_mem hs]
  rfl

/-- `split("=")[1]` of `a=v=rest` with `=`-free `a` and `v` is `v`: the
Python indexing keeps only the field between the first and second `=` and
discards everything after the second `=`. -/
theorem argValue_second_field (a v rest : PyStr) (ha : '=' ∉ a) (hv : '=' ∉ v) :
    argValue (a ++ '=' :: (v ++ '=' :: rest)) = v := by
  rw [argValue, pySplit_append _ ha, pySplit_append _ hv]
  rfl

/-- A `--size=<s>` token splits off its flag at the first `=`. -/
theorem size_token_shape (s : PyStr) : pstr "--size=" ++ s = pstr "--size" ++ '=' :: s := rfl

/-- A `--model=<s>` token splits off its flag at the first `=`. -/
theorem model_token_shape (s : PyStr) : pstr "--model=" ++ s = pstr "--model" ++ '=' :: s := rfl

/-- **C9** (confirmed): for a token `--model=<v>=<rest>` or `--size=<v>=<rest>`
whose value itself contains an `=`, command parsing splits the whole token on
`=` and takes index 1, so only the segment between the first and second `=`
is used as the value, and everything after the second `=` is silently
discarded. -/
theorem claim_C9 (v rest : PyStr) (hveq : '=' ∉ v) (hvsp : ' ' ∉ v) (hrsp : ' ' ∉ rest) :
    argValue (pstr "--model=" ++ (v ++ '=' :: rest)) = v ∧
    pyParse (pstr "--model=" ++ (v ++ '=' :: rest)) = some (some v, none, []) ∧
    (re_match_size v = true →
      pyParse (pstr "--size=" ++ (v ++ '=' :: rest)) = some (none, some v, [])) := by
  have hav1 : argValue (pstr "--model=" ++ (v ++ '=' :: rest)) = v :=
    argValue_second_field (pstr "--model") v rest (by decide) hveq
  have hav2 : argValue (pstr "--size=" ++ (v ++ '=' :: rest)) = v :=
    argValue_second_field (pstr "--size") v rest (by decide) hveq
  refine ⟨hav1, ?_, ?_⟩
  · have hsp : ' ' ∉ pstr "--model=" ++ (v ++ '=' :: rest) := by
      intro hmem
      simp only [List.mem_append, List.mem_cons] at hmem
      rcases hmem with h1 | h2 | h3 | h4
      · revert h1; decide
      · exact hvsp h2
      · exact absurd h3 (by decide)
      · exact hrsp h4
    have hst : pyStartsWith (pstr "--model=") (pstr "--model=" ++ (v ++ '=' :: rest)) = true :=
      startsWith_model_self _
    rw [pyParse, pySplit_not_mem hsp]
    simp only [parseLoop, hst, if_true, hav1]
  · intro hr
    have hsp : ' ' ∉ pstr "--size=" ++ (v ++ '=' :: rest) := by
      intro hmem
      simp only [List.mem_append, List.mem_cons] at hmem
      rcases hmem with h1 | h2 | h3 | h4
      · revert h1; decide
      · exact hvsp h2
      · exact absurd h3 (by decide)
      · exact hrsp h4
    have hnm : pyStartsWith (pstr "--model=") (pstr "--size=" ++ (v ++ '=' :: rest)) = false :=
      not_startsWith_model_size _
    have hss : pyStartsWith (pstr "--size=") (pstr "--size=" ++ (v ++ '=' :: rest)) = true :=
      startsWith_size_self _
    rw [pyParse, pySplit_not_mem hsp]
    simp only [parseLoop, hnm, hss, Bool.false_eq_true, if_false, if_true, hav2, hr]

/-- Witness for C9: `--model=a=b` yields model value `a`; `--size=1x1=junk`
yields the accepted size `1x1`. -/
theorem claim_C9_witness :
    pyParse (pstr "--model=" ++ (pstr "a" ++ '=' :: pstr "b"))
      = some (some (pstr "a"), none, []) ∧
    pyParse (pstr "--size=" ++ (pstr "1x1" ++ '=' :: pstr "junk"))
      = some (none, some (pstr "1x1"), []) :=
  ⟨(claim_C9 (pstr "a") (pstr "b") (by decide) (by decide) (by decide)).2.1,
   (claim_C9 (pstr "1x1") (pstr "junk") (by decide) (by decide) (by decide)).2.2 (by decide)⟩

/-- **C2** (amended): for every size value `s` containing neither a space
nor an `=` (so that `--size=<s>` is one token whose parsed value is `s`),
the token is accepted by command parsing iff `s` matches `^\d+x\d+$`; on
mismatch the invocation terminates early with the fixed invalid-size
validation reply, no exception is raised, and no HTTP calls are made.  (The
claim as frozen quantifies over every string `s`; it fails when `s` itself
contains an `=`, because parsing then truncates the value at the second `=`
— see the counterexample.) -/
theorem claim_C2_amended (s : PyStr) (hsp : ' ' ∉ s) (heq : '=' ∉ s) :
    (re_match_size s = true →
      pyParse (pstr "--size=" ++ s) = some (none, some s, [])) ∧
    (re_match_size s = false →
      pyParse (pstr "--size=" ++ s) = none ∧
      ∀ (env : Backend) (tokens : TokenStore),
        pyGen env tokens (pstr "--size=" ++ s) = (.invalidSizeReply invalidSizeMsg, [])) := by
  have hav : argValue (pstr "--size=" ++ s) = s :=
    argValue_eq_tail (pstr "--size") s (by decide) heq
  have hspt : ' ' ∉ pstr "--size=" ++ s := by
    intro hmem
    rcases List.mem_append.mp hmem with h1 | h2
    · revert h1; decide
    · exact hsp h2
  have hnm : pyStartsWith (pstr "--model=") (pstr "--size=" ++ s) = false :=
    not_startsWith_model_size s
  have hss : pyStartsWith (pstr "--size=") (pstr "--size=" ++ s) = true :=
    startsWith_size_self s
  constructor
  · intro hr
    rw [pyParse, pySplit_not_mem hspt]
    simp only [parseLoop, hnm, hss, Bool.false_eq_true, if_false, if_true, hav, hr]
  · intro hr
    have hpn : pyParse (pstr "--size=" ++ s) = none := by
      rw [pyParse, pySplit_not_mem hspt]
      simp only [parseLoop, hnm, hss, Bool.false_eq_true, if_false, if_true, hav, hr]
    refine ⟨hpn, fun env tokens => ?_⟩
    simp only [pyGen, hpn]

/-- Counterexample to C2 as frozen: for `s = "1x1=9"`, which does not match
`^\d+x\d+$`, the token `--size=1x1=9` is nevertheless accepted — parsing
truncates the value at the second `=`, stores size `1x1`, sends no
validation reply, and proceeds to the HTTP POST with `size = "1x1"`. -/
theorem claim_C2_counterexample :
    re_match_size (pstr "1x1=9") = false ∧
    pyParse (pstr "--size=1x1=9") = some (none, some (pstr "1x1"), []) ∧
    (pyGen okEnv goodTokens (pstr "--size=1x1=9")).1 ≠ .invalidSizeReply invalidSizeMsg ∧
    (pyGen okEnv goodTokens (pstr "--size=1x1=9")).2.head?
      = some (HttpCall.post (pstr "http://api.example/v1/images/generations")
          { prompt := [], n := 1, size := pstr "1x1",
            response_format := pstr "url", model := pstr "flux" }
          (pstr "Bearer secret")) := by
  refine ⟨by decide, by decide, by decide, by decide⟩

/-- Witness for C2: `1024x1024` is accepted; `widexhigh` is rejected with
the fixed validation reply and no HTTP calls. -/
theorem claim_C2_witness :
    pyParse (pstr "--size=" ++ pstr "1024x1024") = some (none, some (pstr "1024x1024"), []) ∧
    pyGen okEnv goodTokens (pstr "--size=" ++ pstr "widexhigh")
      = (.invalidSizeReply invalidSizeMsg, []) :=
  ⟨(claim_C2_amended (pstr "1024x1024") (by decide) (by decide)).1 (by decide),
   ((claim_C2_amended (pstr "widexhigh") (by decide) (by decide)).2 (by decide)).2 okEnv goodTokens⟩

/-- **C10** (confirmed): an empty `--model=` value is treated as absent —
`model or default_model` makes the run of the command identical to one with
no model token — and the empty-size fallback `size or default_size` likewise
makes `_generate_image` treat an empty size exactly like an absent one.
Concretely, `--model= hello` behaves exactly like `hello`. -/
theorem claim_C10 :
    (∀ (env : Backend) (tokens : TokenStore) (size : Option PyStr) (parts : List PyStr),
      pyRunParsed env tokens (some []) size parts = pyRunParsed env tokens none size parts) ∧
    (∀ (env : Backend) (tokens : TokenStore) (prompt : PyStr) (model : Option PyStr),
      pyGenerateImage env tokens prompt model (some [])
        = pyGenerateImage env tokens prompt model none) ∧
    (∀ (env : Backend) (tokens : TokenStore),
      pyParse (pstr "--model= hello") = some (some [], none, [pstr "hello"]) ∧
      pyGen env tokens (pstr "--model= hello") = pyGen env tokens (pstr "hello")) :=
  ⟨fun _ _ _ _ => rfl, fun _ _ _ _ => rfl, fun _ _ => ⟨by decide, rfl⟩⟩

/-- On a fully populated token store the dictionary reads of
`_generate_image` succeed, leaving the model resolution and the request. -/
theorem pyGenerateImage_mkTokens (env : Backend) (dm ds ep k prompt : PyStr)
    (model size : Option PyStr) :
    pyGenerateImage env (mkTokens dm ds ep k) prompt model size =
      (if (model_mapping.lookup (pyToLower (pyOrStr model dm))).isNone then
         (.error (.diffusionError
            (pstr "Model `" ++ pyOrStr model dm ++ pstr "` does not exist.")), [])
       else
         pyRequest env (mkTokens dm ds ep k) ep prompt
           ((model_mapping.lookup (pyToLower (pyOrStr model dm))).getD (pyOrStr model dm))
           (pyOrStr size ds)) := rfl

/-- **C3** (amended): for every **non-empty** model string whose lowercase
form is not a key of the alias table, `generate_image` fails with a
`DiffusionError` whose message mentions that model name, with no partial
fallback and no fuzzy matching; membership is tested case-insensitively.
(The claim as frozen quantifies over every model string; the empty string
is falsy in Python, so `model or default_model` replaces it with the
configured default and no error is raised for it — see the
counterexample.) -/
theorem claim_C3_amended (env : Backend) (dm ds ep k prompt model : PyStr)
    (size : Option PyStr) (hne : model ≠ [])
    (hlk : model_mapping.lookup (pyToLower model) = none) :
    pyGenerateImage env (mkTokens dm ds ep k) prompt (some model) size
      = (.error (.diffusionError
          (pstr "Model `" ++ model ++ pstr "` does not exist.")), []) ∧
    (∃ pre post : PyStr,
      pstr "Model `" ++ model ++ pstr "` does not exist." = pre ++ model ++ post) := by
  have hie : model.isEmpty = false := by
    cases model with
    | nil => exact absurd rfl hne
    | cons a l => rfl
  have hor : pyOrStr (some model) dm = model := by
    simp only [pyOrStr, hie, Bool.false_eq_true, if_false]
  refine ⟨?_, ⟨pstr "Model `", pstr "` does not exist.", rfl⟩⟩
  rw [pyGenerateImage_mkTokens, hor, hlk]
  rfl

/-- Counterexample to C3 as frozen: the empty string is not a key of the
alias table, yet `generate_image` with `model = ""` succeeds — the falsy
value falls back to the configured default (`sdxl` here) and the request is
sent with the default's mapped backend id. -/
theorem claim_C3_counterexample :
    model_mapping.lookup (pyToLower []) = none ∧
    pyGenerateImage okEnv
        (mkTokens (pstr "sdxl") (pstr "256x256") (pstr "http://api.example") (pstr "secret"))
        (pstr "p") (some []) none
      = (.ok pngBytes,
         [HttpCall.post (pstr "http://api.example/v1/images/generations")
            { prompt := pstr "p", n := 1, size := pstr "256x256",
              response_format := pstr "url", model := pstr "sdxl-lightning-4step" }
            (pstr "Bearer secret"),
          HttpCall.get (pstr "http://img.example/out.png")]) := by
  refine ⟨by decide, rfl⟩

/-- Witness for C3: `model = "bogus"` fails with a `DiffusionError` whose
message contains `bogus`. -/
theorem claim_C3_witness :
    pyGenerateImage okEnv goodTokens (pstr "p") (some (pstr "bogus")) none
      = (.error (.diffusionError
          (pstr "Model `" ++ pstr "bogus" ++ pstr "` does not exist.")), []) ∧
    (∃ pre post : PyStr,
      pstr "Model `" ++ pstr "bogus" ++ pstr "` does not exist."
        = pre ++ pstr "bogus" ++ post) :=
  claim_C3_amended okEnv (pstr "base") (pstr "512x512") (pstr "http://api.example")
    (pstr "secret") (pstr "p") (pstr "bogus") none (by decide) (by decide)

/-- Whatever the mocked response, the first HTTP request `_request` issues
is the POST with the constructed body and bearer header. -/
theorem pyRequest_calls_head (env : Backend) (tokens : TokenStore)
    (baseUrl prompt model size : PyStr) :
    (pyRequest env tokens baseUrl prompt model size).2.head?
      = some (HttpCall.post (baseUrl ++ pstr "/v1/images/generations")
          { prompt := prompt, n := 1, size := size,
            response_format := pstr "url", model := model }
          (pstr "Bearer " ++ pyStrOfOpt (tokens.lookup (pstr "key")))) := by
  rcases env with ⟨⟨status, body⟩, g⟩
  cases body with
  | wrongContentType m => rfl
  | malformed => rfl
  | parsed j =>
    simp only [pyRequest]
    cases hok : response_ok status with
    | false => rfl
    | true =>
      simp only [hok, Bool.not_true, Bool.false_eq_true, if_false]
      cases h1 : pyGetKey j (pstr "data") with
      | error e => rfl
      | ok d =>
        dsimp only
        cases h2 : pyGetIdx d 0 with
        | error e => rfl
        | ok first =>
          dsimp only
          cases h3 : pyGetKey first (pstr "url") with
          | error e => rfl
          | ok uv =>
            dsimp only
            cases uv <;> rfl

/-- **C4** (confirmed): for every alias present in the alias table, the
`model` field of the outbound POST body is the mapped backend identifier,
not the alias itself. -/
theorem claim_C4 (env : Backend) (dm ds ep k prompt als : PyStr) (size : Option PyStr)
    (b : PyStr) (hlk : model_mapping.lookup (pyToLower als) = some b) :
    (pyGenerateImage env (mkTokens dm ds ep k) prompt (some als) size).2.head?
      = some (HttpCall.post (ep ++ pstr "/v1/images/generations")
          { prompt := prompt, n := 1, size := pyOrStr size ds,
            response_format := pstr "url", model := b }
          (pstr "Bearer " ++ k)) ∧
    b ≠ als := by
  have hne : als ≠ [] := by
    intro h
    subst h
    have hnone : model_mapping.lookup (pyToLower ([] : PyStr)) = none := by decide
    rw [hnone] at hlk
    exact Option.noConfusion hlk
  have hie : als.isEmpty = false := by
    cases als with
    | nil => exact absurd rfl hne
    | cons a l => rfl
  have hor : pyOrStr (some als) dm = als := by
    simp only [pyOrStr, hie, Bool.false_eq_true, if_false]
  constructor
  · rw [pyGenerateImage_mkTokens, hor, hlk]
    simp only [Option.isNone_some, Bool.false_eq_true, if_false, Option.getD_some]
    exact pyRequest_calls_head env (mkTokens dm ds ep k) ep prompt b (pyOrStr size ds)
  · intro heq
    have hmem : (pyToLower als, b) ∈ model_mapping := lookup_mem hlk
    have hf : ∀ p ∈ model_mapping, pyToLower p.2 ≠ p.1 := by decide
    exact hf (pyToLower als, b) hmem (by rw [heq])

/-- Witness for C4: the alias `sdxl` produces a POST whose body's `model`
field is `sdxl-lightning-4step`, which differs from the alias. -/
theorem claim_C4_witness :
    (pyGenerateImage okEnv goodTokens (pstr "p") (some (pstr "sdxl")) none).2.head?
      = some (HttpCall.post (pstr "http://api.example/v1/images/generations")
          { prompt := pstr "p", n := 1, size := pstr "512x512",
            response_format := pstr "url", model := pstr "sdxl-lightning-4step" }
          (pstr "Bearer secret")) ∧
    pstr "sdxl-lightning-4step" ≠ pstr "sdxl" :=
  claim_C4 okEnv (pstr "base") (pstr "512x512") (pstr "http://api.example") (pstr "secret")
    (pstr "p") (pstr "sdxl") none (pstr "sdxl-lightning-4step") (by decide)

/-- **C5** (amended): when the arguments contain no `--model=` token, the
model *resolved* for the request is `Configuration.default_model`: the
parsed model is `None`, the POST body's `model` field carries the alias
table's mapping of the default, and the success reply names the default
itself.  (The claim as frozen says the POST body's `model` field equals the
default entry; it actually equals the mapped backend id of that default —
see the counterexample.) -/
theorem claim_C5_amended (env : Backend) (dm ds ep k args : PyStr) (m s : Option PyStr)
    (parts : List PyStr) (b : PyStr)
    (hno : ∀ t ∈ pySplit ' ' args, pyStartsWith (pstr "--model=") t = false)
    (hparse : pyParse args = some (m, s, parts))
    (hlk : model_mapping.lookup (pyToLower dm) = some b) :
    m = none ∧
    (pyGenerateImage env (mkTokens dm ds ep k) (pyJoin ' ' parts) none s).2.head?
      = some (HttpCall.post (ep ++ pstr "/v1/images/generations")
          { prompt := pyJoin ' ' parts, n := 1, size := pyOrStr s ds,
            response_format := pstr "url", model := b }
          (pstr "Bearer " ++ k)) ∧
    (∀ (file : PyFile) (embedDesc : PyStr) (calls : List HttpCall),
      pyGen env (mkTokens dm ds ep k) args = (.success file embedDesc, calls) →
      embedDesc = pstr "Prompt: " ++ pyJoin ' ' parts ++ pstr "; Model: " ++ dm ++ pstr ";") := by
  have hparse' : parseLoop (pySplit ' ' args) none none [] = some (m, s, parts) := hparse
  have hm0 : m = none := parseLoop_model_none _ _ _ _ _ _ hno hparse'
  subst hm0
  refine ⟨rfl, ?_, ?_⟩
  · rw [pyGenerateImage_mkTokens]
    simp only [pyOrStr]
    rw [hlk]
    simp only [Option.isNone_some, Bool.false_eq_true, if_false, Option.getD_some]
    exact pyRequest_calls_head env (mkTokens dm ds ep k) ep (pyJoin ' ' parts) b (pyOrStr s ds)
  · intro file embedDesc calls hgen
    simp only [pyGen, hparse] at hgen
    simp only [pyRunParsed] at hgen
    rcases hgi : pyGenerateImage env (mkTokens dm ds ep k) (pyJoin ' ' parts) none s
      with ⟨res, calls2⟩
    rw [hgi] at hgen
    cases res with
    | error e => cases e <;> simp at hgen
    | ok data =>
      simp only [Prod.mk.injEq, GenOutcome.success.injEq] at hgen
      exact hgen.1.2.symm

/-- Counterexample to C5 as frozen: with default model `base`, an invocation
with no `--model=` token sends a POST whose body's `model` field is `flux`
(the mapped backend id), which is not the configured default entry `base`;
the reply embed, in contrast, does name `base`. -/
theorem claim_C5_counterexample :
    (pyGen okEnv goodTokens (pstr "hi")).2.head?
      = some (HttpCall.post (pstr "http://api.example/v1/images/generations")
          { prompt := pstr "hi", n := 1, size := pstr "512x512",
            response_format := pstr "url", model := pstr "flux" }
          (pstr "Bearer secret")) ∧
    pstr "flux" ≠ pstr "base" ∧
    (pyGen okEnv goodTokens (pstr "hi")).1
      = .success { content := pngBytes, filename := pstr "hi.png" }
          (pstr "Prompt: hi; Model: base;") := by
  refine ⟨by decide, by decide, by decide⟩

/-- Witness for C5: prompt `hello` with no model token resolves the default
`base`, posts `model = "flux"`, and the success embed names `base`. -/
theorem claim_C5_witness :
    (pyGenerateImage okEnv goodTokens (pstr "hello") none none).2.head?
      = some (HttpCall.post (pstr "http://api.example/v1/images/generations")
          { prompt := pstr "hello", n := 1, size := pstr "512x512",
            response_format := pstr "url", model := pstr "flux" }
          (pstr "Bearer secret")) ∧
    (∀ (file : PyFile) (embedDesc : PyStr) (calls : List HttpCall),
      pyGen okEnv goodTokens (pstr "hello") = (.success file embedDesc, calls) →
      embedDesc = pstr "Prompt: hello; Model: base;") :=
  ⟨((claim_C5_amended okEnv (pstr "base") (pstr "512x512") (pstr "http://api.example")
      (pstr "secret") (pstr "hello") none none [pstr "hello"] (pstr "flux")
      (by decide) (by decide) (by decide)).2.1 : _),
   fun file embedDesc calls h =>
     ((claim_C5_amended okEnv (pstr "base") (pstr "512x512") (pstr "http://api.example")
      (pstr "secret") (pstr "hello") none none [pstr "hello"] (pstr "flux")
      (by decide) (by decide) (by decide)).2.2 file embedDesc calls h : _)⟩

/-- `dict.get(k)` is falsy exactly when the key is absent or maps to the
empty string. -/
theorem pyFalsy_iff (o : Option PyStr) : pyFalsy o = true ↔ (o = none ∨ o = some []) := by
  cases o with
  | none => simp [pyFalsy]
  | some v => cases v <;> simp [pyFalsy]

/-- **C6** (amended): `initialize_tokens` reads the four required keys
(model, size, endpoint, key) and fails exactly when one of them is absent
or empty, raising a `DiffusionError` — the code has no separate SetupError
kind — that carries the human-readable remediation message; otherwise it
succeeds and raises nothing.  (The claim as frozen says the failure is a
SetupError distinct from DiffusionError, and that presence of all keys
suffices for success; the code reuses `DiffusionError` and also rejects
present-but-empty values — see the counterexample.) -/
theorem claim_C6_amended (store : TokenStore) :
    (pyInitializeTokens store = .error (.diffusionError setupMsg) ↔
      ((store.lookup (pstr "model") = none ∨ store.lookup (pstr "model") = some []) ∨
       (store.lookup (pstr "size") = none ∨ store.lookup (pstr "size") = some []) ∨
       (store.lookup (pstr "endpoint") = none ∨ store.lookup (pstr "endpoint") = some []) ∨
       (store.lookup (pstr "key") = none ∨ store.lookup (pstr "key") = some []))) ∧
    (pyInitializeTokens store = .ok () ↔
      ¬ ((store.lookup (pstr "model") = none ∨ store.lookup (pstr "model") = some []) ∨
         (store.lookup (pstr "size") = none ∨ store.lookup (pstr "size") = some []) ∨
         (store.lookup (pstr "endpoint") = none ∨ store.lookup (pstr "endpoint") = some []) ∨
         (store.lookup (pstr "key") = none ∨ store.lookup (pstr "key") = some []))) := by
  cases h1 : pyFalsy (store.lookup (pstr "model")) <;>
    cases h2 : pyFalsy (store.lookup (pstr "size")) <;>
      cases h3 : pyFalsy (store.lookup (pstr "endpoint")) <;>
        cases h4 : pyFalsy (store.lookup (pstr "key")) <;>
          (simp only [← pyFalsy_iff, h1, h2, h3, h4]
           simp [pyInitializeTokens, h1, h2, h3, h4])

/-- Counterexample to C6 as frozen: with `key` missing the failure is an
error of the `DiffusionError` kind — the code defines no distinct
SetupError — and with all four keys present but `key` empty the call still
fails rather than succeeding. -/
theorem claim_C6_counterexample :
    pyInitializeTokens [(pstr "model", pstr "base"), (pstr "size", pstr "512x512"),
        (pstr "endpoint", pstr "http://api.example")]
      = .error (.diffusionError setupMsg) ∧
    pyInitializeTokens
        (mkTokens (pstr "base") (pstr "512x512") (pstr "http://api.example") [])
      = .error (.diffusionError setupMsg) :=
  ⟨rfl, rfl⟩

/-- The characters Python `str.split()` (no separator) treats as whitespace,
restricted to ASCII. -/
def isSpaceChar (c : Char) : Bool :=
  c = ' ' || c = '\t' || c = '\n' || c = '\r' || c = '\x0b' || c = '\x0c'

/-- Helper for whitespace splitting: walks the text accumulating the
current token; runs of whitespace separate tokens and never produce empty
tokens. -/
def wsSplitAux : PyStr → PyStr → List PyStr
  | [], cur => if cur.isEmpty then [] else [cur]
  | c :: rest, cur =>
    if isSpaceChar c then
      if cur.isEmpty then wsSplitAux rest []
      else cur :: wsSplitAux rest []
    else wsSplitAux rest (cur ++ [c])

/-- Follows the spec's words, not the source: "Splits the raw text on
whitespace into tokens" — Python whitespace splitting, `str.split()` with
no separator. -/
def specWhitespaceTokens (s : PyStr) : List PyStr := wsSplitAux s []

/-- Follows the spec's words, not the source: the prompt as claim C7
describes it — the whitespace-split tokens not matching `--model=`/`--size=`,
joined with single spaces in their original order. -/
def specPrompt (s : PyStr) : PyStr :=
  pyJoin ' ' ((specWhitespaceTokens s).filter keepTok)

/-- **C7** (amended): command parsing splits the raw text on the **space
character** (not on general whitespace); every token starting with neither
`--model=` nor `--size=` is kept, and the kept tokens are joined with
single spaces in their original relative order to form the prompt; for raw
text whose tokens contain no `--model=`/`--size=` token, parsing is an
idempotent round-trip: the prompt equals the raw text and re-parsing it
yields the same prompt.  (The claim as frozen says the split is on
whitespace; the source splits on `" "` only — a tab survives inside a
token, see the counterexample.) -/
theorem claim_C7_amended (args : PyStr) :
    (∀ (m s : Option PyStr) (parts : List PyStr),
      pyParse args = some (m, s, parts) →
      parts = (pySplit ' ' args).filter keepTok) ∧
    ((∀ t ∈ pySplit ' ' args, keepTok t = true) →
      pyPromptOf args = some args ∧ (pyPromptOf args).bind pyPromptOf = some args) := by
  constructor
  · intro m s parts h
    have h' : parseLoop (pySplit ' ' args) none none [] = some (m, s, parts) := h
    have := parseLoop_parts (pySplit ' ' args) none none [] m s parts h'
    simpa using this
  · intro hall
    have hp : pyParse args = some (none, none, [] ++ pySplit ' ' args) :=
      parseLoop_all_keep (pySplit ' ' args) none none [] hall
    rw [List.nil_append] at hp
    have hfirst : pyPromptOf args = some args := by
      rw [pyPromptOf, hp, Option.map_some']
      exact congrArg some (pyJoin_pySplit ' ' args)
    refine ⟨hfirst, ?_⟩
    rw [hfirst]
    exact hfirst

/-- Counterexample to C7 as frozen: on the raw text `a<TAB>b` the
spec-described whitespace splitting joined with single spaces yields
`a b`, but the code keeps the tab inside a single token and the prompt is
`a<TAB>b` — equal to the raw text, which also shows that the whitespace
reading contradicts the claim's own round-trip property. -/
theorem claim_C7_counterexample :
    specPrompt (pstr "a\tb") = pstr "a b" ∧
    pyPromptOf (pstr "a\tb") = some (pstr "a\tb") ∧
    pstr "a\tb" ≠ pstr "a b" := by
  refine ⟨by decide, by decide, by decide⟩

/-- Witness for C7: `hello world` round-trips, and in `x --model=m y` the
kept tokens are exactly `x` and `y`, in order. -/
theorem claim_C7_witness :
    pyPromptOf (pstr "hello world") = some (pstr "hello world") ∧
    ([pstr "x", pstr "y"] : List PyStr) = (pySplit ' ' (pstr "x --model=m y")).filter keepTok :=
  ⟨((claim_C7_amended (pstr "hello world")).2 (by decide)).1,
   (claim_C7_amended (pstr "x --model=m y")).1 (some (pstr "m")) none
     [pstr "x", pstr "y"] (by decide)⟩

/-- **C8** (confirmed): for every successful generation, the bytes returned
by `_generate_image` are delivered unchanged as the single attachment of
the success reply, and the attachment's filename is the prompt with each
space character replaced by an underscore — no other character altered —
suffixed `.png`. -/
theorem claim_C8 (env : Backend) (tokens : TokenStore) (args : PyStr)
    (m s : Option PyStr) (parts : List PyStr) (data : List Nat) (calls : List HttpCall)
    (hparse : pyParse args = some (m, s, parts))
    (hgen : pyGenerateImage env tokens (pyJoin ' ' parts) m s = (.ok data, calls)) :
    pyGen env tokens args
      = (.success
          { content := data,
            filename := (pyJoin ' ' parts).map (fun c => if c = ' ' then '_' else c)
              ++ pstr ".png" }
          (pstr "Prompt: " ++ pyJoin ' ' parts ++ pstr "; Model: "
            ++ pyDisplayModel m tokens ++ pstr ";"),
         calls) := by
  simp only [pyGen, hparse, pyRunParsed]
  rw [hgen]
  rfl

/-- Witness for C8: the mocked backend returns `b"\x89PNG"`; the prompt
`cool cat` yields one attachment with exactly those bytes and the filename
`cool_cat.png`. -/
theorem claim_C8_witness :
    pyGen okEnv goodTokens (pstr "cool cat")
      = (.success
          { content := pngBytes, filename := pstr "cool_cat.png" }
          (pstr "Prompt: cool cat; Model: base;"),
         [HttpCall.post (pstr "http://api.example/v1/images/generations")
            { prompt := pstr "cool cat", n := 1, size := pstr "512x512",
              response_format := pstr "url", model := pstr "flux" }
            (pstr "Bearer secret"),
          HttpCall.get (pstr "http://img.example/out.png")]) :=
  claim_C8 okEnv goodTokens (pstr "cool cat") none none [pstr "cool", pstr "cat"]
    pngBytes
    [HttpCall.post (pstr "http://api.example/v1/images/generations")
       { prompt := pstr "cool cat", n := 1, size := pstr "512x512",
         response_format := pstr "url", model := pstr "flux" }
       (pstr "Bearer secret"),
     HttpCall.get (pstr "http://img.example/out.png")]
    (by decide) rfl

/-- On a non-success status whose body parsed as JSON, `_request` raises
`DiffusionError` with the status, after a single POST and no GET, and
independently of the parsed JSON value. -/
theorem pyRequest_not_ok (tokens : TokenStore) (baseUrl prompt model size : PyStr)
    (status : Nat) (j : JsonVal) (g : PyStr → List Nat)
    (hok : response_ok status = false) :
    pyRequest { postResp := { status := status, body := .parsed j }, getBody := g }
        tokens baseUrl prompt model size
      = (.error (.diffusionError (pstr "Error?: " ++ natToStr status)),
         [HttpCall.post (baseUrl ++ pstr "/v1/images/generations")
            { prompt := prompt, n := 1, size := size,
              response_format := pstr "url", model := model }
            (pstr "Bearer " ++ pyStrOfOpt (tokens.lookup (pstr "key")))]) := by
  simp only [pyRequest]
  rw [hok]
  rfl

/-- **C1** (amended): for every POST response carrying a non-success HTTP
status **whose body parses as JSON**, `generate_image` fails with a
`DiffusionError` carrying that status code, without consulting the parsed
body for error detail (the conclusion is independent of the JSON value
`j`), and the invocation ends with the `DiffusionError`-derived reply
containing the status and no file attachment, after the POST and no GET.
(The claim as frozen says this holds regardless of the shape of the error
response body; but the source calls `response.json()` *before* checking
`response.ok`, so a non-JSON error body raises `aiohttp.ContentTypeError`
— a `ClientResponseError`, answered by the other except branch — or an
uncaught `json.JSONDecodeError` instead — see the counterexample.) -/
theorem claim_C1_amended (dm ds ep k args : PyStr) (m s : Option PyStr) (parts : List PyStr)
    (b : PyStr) (j : JsonVal) (status : Nat) (g : PyStr → List Nat)
    (hparse : pyParse args = some (m, s, parts))
    (hlk : model_mapping.lookup (pyToLower (pyOrStr m dm)) = some b)
    (hstatus : 400 ≤ status) :
    (pyGenerateImage { postResp := { status := status, body := .parsed j }, getBody := g }
        (mkTokens dm ds ep k) (pyJoin ' ' parts) m s).1
      = .error (.diffusionError (pstr "Error?: " ++ natToStr status)) ∧
    pyGen { postResp := { status := status, body := .parsed j }, getBody := g }
        (mkTokens dm ds ep k) args
      = (.errorReply (pstr "Something went wrong...\n" ++ (pstr "Error?: " ++ natToStr status)),
         [HttpCall.post (ep ++ pstr "/v1/images/generations")
            { prompt := pyJoin ' ' parts, n := 1, size := pyOrStr s ds,
              response_format := pstr "url", model := b }
            (pstr "Bearer " ++ k)]) := by
  have hok : response_ok status = false := by
    simp only [response_ok, decide_eq_false_iff_not]
    omega
  have hgen1 : pyGenerateImage
      { postResp := { status := status, body := .parsed j }, getBody := g }
      (mkTokens dm ds ep k) (pyJoin ' ' parts) m s
      = (.error (.diffusionError (pstr "Error?: " ++ natToStr status)),
         [HttpCall.post (ep ++ pstr "/v1/images/generations")
            { prompt := pyJoin ' ' parts, n := 1, size := pyOrStr s ds,
              response_format := pstr "url", model := b }
            (pstr "Bearer " ++ pyStrOfOpt ((mkTokens dm ds ep k).lookup (pstr "key")))]) := by
    rw [pyGenerateImage_mkTokens, hlk]
    simp only [Option.isNone_some, Bool.false_eq_true, if_false, Option.getD_some]
    exact pyRequest_not_ok (mkTokens dm ds ep k) ep (pyJoin ' ' parts) b (pyOrStr s ds)
      status j g hok
  constructor
  · rw [hgen1]
  · simp only [pyGen, hparse, pyRunParsed]
    rw [hgen1]
    rfl

/-- A mocked backend answering the POST with HTTP 500 and a non-JSON body
(an HTML error page): per the `aiohttp` contract, `response.json()` raises
`ContentTypeError` carrying the status. -/
def errEnv : Backend :=
  { postResp :=
      { status := 500,
        body := .wrongContentType
          (pstr "Attempt to decode JSON with unexpected mimetype: text/html") },
    getBody := fun _ => [] }

/-- Counterexample to C1 as frozen: for a 500 POST response whose body is
not JSON, `generate_image` fails with a `ClientResponseError`
(`ContentTypeError`), not a `DiffusionError` — `response.json()` runs
before the `response.ok` check — and the user reply is the
`ClientResponseError`-branch reply, not a `DiffusionError`-derived one. -/
theorem claim_C1_counterexample :
    (pyGenerateImage errEnv goodTokens (pstr "hello") none none).1
      = .error (.clientResponseError 500
          (pstr "Attempt to decode JSON with unexpected mimetype: text/html")) ∧
    (pyGen errEnv goodTokens (pstr "hello")).1
      = .httpErrorReply
          (pstr "Error?: `500`\nAttempt to decode JSON with unexpected mimetype: text/html") ∧
    isDiffusionReply (pyGen errEnv goodTokens (pstr "hello")).1 = false :=
  ⟨rfl, rfl, rfl⟩

/-- Witness for C1: a mocked HTTP 500 whose body is JSON (of an arbitrary
shape the success path never expects) yields the `DiffusionError` reply
whose text contains `500`, a single POST and no attachment. -/
theorem claim_C1_witness :
    (pyGenerateImage
        { postResp :=
            { status := 500,
              body := .parsed (JsonVal.obj [(pstr "detail", JsonVal.str (pstr "boom"))]) },
          getBody := fun _ => [] }
        goodTokens (pstr "hello") none none).1
      = .error (.diffusionError (pstr "Error?: 500")) ∧
    pyGen
        { postResp :=
            { status := 500,
              body := .parsed (JsonVal.obj [(pstr "detail", JsonVal.str (pstr "boom"))]) },
          getBody := fun _ => [] }
        goodTokens (pstr "hello")
      = (.errorReply (pstr "Something went wrong...\nError?: 500"),
         [HttpCall.post (pstr "http://api.example/v1/images/generations")
            { prompt := pstr "hello", n := 1, size := pstr "512x512",
              response_format := pstr "url", model := pstr "flux" }
            (pstr "Bearer secret")]) ∧
    pyContains (natToStr 500) (pstr "Something went wrong...\nError?: 500") = true :=
  ⟨(claim_C1_amended (pstr "base") (pstr "512x512") (pstr "http://api.example") (pstr "secret")
      (pstr "hello") none none [pstr "hello"] (pstr "flux")
      (JsonVal.obj [(pstr "detail", JsonVal.str (pstr "boom"))]) 500 (fun _ => [])
      (by decide) (by decide) (by decide)).1,
   (claim_C1_amended (pstr "base") (pstr "512x512") (pstr "http://api.example") (pstr "secret")
      (pstr "hello") none none [pstr "hello"] (pstr "flux")
      (JsonVal.obj [(pstr "detail", JsonVal.str (pstr "boom"))]) 500 (fun _ => [])
      (by decide) (by decide) (by decide)).2,
   by decide⟩

/-- Witness for C6: on a store with all four keys present and non-empty,
`initialize_tokens` succeeds. -/
theorem claim_C6_witness : pyInitializeTokens goodTokens = .ok () :=
  ((claim_C6_amended goodTokens).2).mpr (by decide)
